import Mathlib

/-!
Verification of the workflow execution engine of the No-Code platform
backend (`backend/app/services/workflow_executor.py`), against its
natural-language specification.

The engine is embedded shallowly:

* `WorkflowNode`, `WorkflowEdge`, `NodeData` mirror the Pydantic schemas in
  `backend/app/schemas/workflow.py` (only the fields the engine reads;
  position/handle/layout fields are opaque to the engine and omitted).
* `validateWorkflow`, `determineExecutionOrder`, `validateNodeConfig` mirror
  `WorkflowExecutor.validate_workflow`, `_determine_execution_order` and
  `_validate_node_config`.
* `executeWorkflow`, `executeComponent` and the four per-type handlers mirror
  `execute_workflow`, `_execute_component`, `_execute_user_query`,
  `_execute_knowledge_base`, `_execute_llm_engine`, `_execute_output`.
  Python exceptions become `Except String` values carrying `str(e)`; the
  external LLM / vector-search services become an explicit `Capabilities`
  record of (possibly failing) functions.
* The Pydantic `NodeData` schema declares no `maxTokens` field, yet
  `_execute_llm_engine` reads `node.data.maxTokens` while assembling its
  generation call; under Pydantic that attribute access raises
  `AttributeError("'NodeData' object has no attribute 'maxTokens'")`, so the
  generation capability is never actually invoked.  The llm handler is
  embedded accordingly: after query resolution succeeds it fails with that
  exception's message.
* Wall-clock times (`time.time()` stamps, the millisecond totals) are not
  modelled; the corresponding result fields are kept with value 0 so that the
  shape of the returned records matches the code.
* Python `set` iteration order (used only to join the missing-component type
  names into one message) is unspecified; here the names appear in the fixed
  order `input, llm, output` of the `required_types` literal.
-/

deriving instance DecidableEq for Except

namespace NoCode

/-- Python truthiness of an optional string: `None` and `""` are falsy. -/
def strTruthy : Option String → Bool
  | none => false
  | some s => !s.isEmpty

/-- Python `s or d` for an optional string `s`: falsy (`None`/`""`) gives `d`. -/
def orString (o : Option String) (d : String) : String :=
  match o with
  | none => d
  | some s => if s.isEmpty then d else s

/-- Python `n or d` for an optional int `n`: falsy (`None`/`0`) gives `d`. -/
def orInt (o : Option Int) (d : Int) : Int :=
  match o with
  | none => d
  | some n => if n = 0 then d else n

/-- Model of `NodeData` from `app/schemas/workflow.py`, restricted to the
fields the executor reads.  `threshold` is declared in the schema (default
0.7) but never read by the engine.  The schema declares NO `maxTokens`
field, although `_execute_llm_engine` tries to read one — see
`attributeErrorMaxTokens`. -/
structure NodeData where
  label : String := ""
  model : Option String := none
  collection : Option String := none
  topK : Option Int := some 5
  threshold : Option ℚ := some (7/10)
  format : Option String := some "text"
  use_web_search : Option Bool := some false
  deriving Repr, DecidableEq

/-- Model of `WorkflowNode` (id, type, data); `position` is ignored by the engine. -/
structure WorkflowNode where
  id : String
  type : String
  data : NodeData
  deriving Repr, DecidableEq

/-- Model of `WorkflowEdge` (id, source, target); handle labels are ignored. -/
structure WorkflowEdge where
  id : String := ""
  source : String
  target : String
  deriving Repr, DecidableEq

/-- Model of `ComponentType.USER_QUERY.value` -/
def inputType : String := "input"

/-- Model of `ComponentType.KNOWLEDGE_BASE.value` -/
def knowledgeType : String := "knowledge"

/-- Model of `ComponentType.LLM_ENGINE.value` -/
def llmType : String := "llm"

/-- Model of `ComponentType.OUTPUT.value` -/
def outputType : String := "output"

/-- The `required_types` set of `validate_workflow`, as a list in the fixed
order of the Python literal. -/
def requiredTypes : List String := [inputType, llmType, outputType]

/-- Model of `required_types - node_types`: the required component types with no node
of that type present (Python set difference; order fixed here, see header). -/
def missingRequired (nodes : List WorkflowNode) : List String :=
  requiredTypes.filter (fun t => !(nodes.map (·.type)).contains t)

/-- Model of `_validate_node_config`: per-node configuration errors. -/
def validateNodeConfig (node : WorkflowNode) : List String :=
  if node.type == llmType then
    if !strTruthy node.data.model then
      ["LLM Engine node " ++ (node.id ++ ": Model is required")]
    else []
  else if node.type == knowledgeType then
    (if !strTruthy node.data.collection then
      ["Knowledge Base node " ++ (node.id ++ ": Collection name is required")]
    else []) ++
    (match node.data.topK with
     | none => []
     | some k =>
       if k < 1 ∨ k > 50 then
         ["Knowledge Base node " ++ (node.id ++ ": TopK must be between 1 and 50")]
       else [])
  else []

/-- The adjacency list of `_determine_execution_order`: the Python code builds
`graph = {node.id: [] for node in nodes}` and appends `edge.target` to
`graph[edge.source]` for each edge whose source is a node id, so the adjacency
of `nid` is the (edge-ordered) list of targets of edges out of `nid` when
`nid` is a node id, and `[]` otherwise (`graph.get(current_node, [])`). -/
def adjOf (nodes : List WorkflowNode) (edges : List WorkflowEdge) (nid : String) :
    List String :=
  if (nodes.map (·.id)).contains nid then
    (edges.filter (fun e => e.source == nid)).map (·.target)
  else []

/-- The BFS loop of `_determine_execution_order`, returning the visit order
and the visited set (as a list, most recent first).  The loop is fuelled: each
iteration consumes one queue element, and at most `1 + edges.length` elements
are ever enqueued (the start node plus, per first visit of a node, a subset of
its adjacency list, and the adjacency lists of distinct node ids are disjoint
sublists of the edge list), so any fuel of at least `1 + edges.length` lets
the queue drain exactly as the unfuelled Python loop does. -/
def bfsLoop (adj : String → List String) :
    Nat → List String → List String → List String → List String × List String
  | 0, _, visited, order => (order, visited)
  | _ + 1, [], visited, order => (order, visited)
  | fuel + 1, q :: rest, visited, order =>
    if visited.contains q then
      bfsLoop adj fuel rest visited order
    else
      bfsLoop adj fuel
        (rest ++ (adj q).filter (fun t => !(q :: visited).contains t))
        (q :: visited) (order ++ [q])

/-- Fuel for `bfsLoop`; `edges.length + 1` suffices (see `bfsLoop`), the extra
`nodes.length` is slack. -/
def bfsFuel (nodes : List WorkflowNode) (edges : List WorkflowEdge) : Nat :=
  nodes.length + edges.length + 1

/-- Model of `_determine_execution_order`: BFS from the first `input`-type node, then
append the nodes the BFS never visited, in node-listing order.  Returns `[]`
when no `input`-type node exists. -/
def determineExecutionOrder (nodes : List WorkflowNode) (edges : List WorkflowEdge) :
    List String :=
  match nodes.find? (fun n => n.type == inputType) with
  | none => []
  | some inp =>
    let r := bfsLoop (adjOf nodes edges) (bfsFuel nodes edges) [inp.id] [] []
    r.1 ++ (nodes.filter (fun n => !r.2.contains n.id)).map (·.id)

/-- The breadth-first traversal as worded by the spec (§4.2): dequeue a node,
if unvisited mark it visited and append it to the order, then enqueue its
unvisited outgoing neighbours.  Kept separate from `bfsLoop` (the code's
loop, which also returns its visited set) for the refinement comparison. -/
def bfsSpecLoop (adj : String → List String) :
    Nat → List String → List String → List String → List String
  | 0, _, _, order => order
  | _ + 1, [], _, order => order
  | fuel + 1, q :: rest, visited, order =>
    if visited.contains q then
      bfsSpecLoop adj fuel rest visited order
    else
      bfsSpecLoop adj fuel
        (rest ++ (adj q).filter (fun t => !(q :: visited).contains t))
        (q :: visited) (order ++ [q])

/-- The spec's wording of the order resolver: the BFS order from the first
`input`-type node in node-listing order, followed by every node not visited
by the BFS (equivalently, not in the BFS order), in node-listing order. -/
def resolveOrderSpec (nodes : List WorkflowNode) (edges : List WorkflowEdge) :
    List String :=
  match nodes.find? (fun n => n.type == inputType) with
  | none => []
  | some inp =>
    let order := bfsSpecLoop (adjOf nodes edges) (bfsFuel nodes edges) [inp.id] [] []
    order ++ (nodes.filter (fun n => !order.contains n.id)).map (·.id)

/-- Model of `WorkflowValidation` from `app/schemas/workflow.py`. -/
structure WorkflowValidation where
  is_valid : Bool
  errors : List String
  warnings : List String
  execution_order : List String
  deriving Repr, DecidableEq

/-- The missing-required-components message of `validate_workflow`. -/
def missingMsg (nodes : List WorkflowNode) : String :=
  "Missing required components: " ++ String.intercalate ", " (missingRequired nodes)

/-- The structural errors of `validate_workflow` (steps before the order
computation): missing required component types, then the two cardinality
checks. -/
def structuralErrors (nodes : List WorkflowNode) : List String :=
  (if (missingRequired nodes).isEmpty then [] else [missingMsg nodes]) ++
  (if (nodes.filter (fun n => n.type == inputType)).length > 1 then
    ["Only one User Query component is allowed"] else []) ++
  (if (nodes.filter (fun n => n.type == outputType)).length > 1 then
    ["Only one Output component is allowed"] else [])

/-- The full error list collected by `validate_workflow`: the structural
errors, then (only when there was no structural error) the connection error
when the resolver came back empty, then the per-node configuration errors of
every node. -/
def allErrors (nodes : List WorkflowNode) (edges : List WorkflowEdge) :
    List String :=
  structuralErrors nodes ++
  (if (structuralErrors nodes).isEmpty ∧
      (determineExecutionOrder nodes edges).isEmpty then
    ["Invalid workflow connections - cannot determine execution order"]
  else []) ++
  (nodes.map validateNodeConfig).flatten

/-- Model of `validate_workflow`: structural checks, then (only if no structural error)
the execution order with an error when it comes back empty, then the per-node
configuration checks for every node; `is_valid` iff no error was collected.
The `try`/`except` wrapper of the Python code is unreachable (the body is
pure) and therefore not modelled. -/
def validateWorkflow (nodes : List WorkflowNode) (edges : List WorkflowEdge) :
    WorkflowValidation :=
  { is_valid := (allErrors nodes edges).isEmpty
    errors := allErrors nodes edges
    warnings := []
    execution_order :=
      if (structuralErrors nodes).isEmpty then
        determineExecutionOrder nodes edges
      else [] }

/-- A document returned by the vector-search capability, restricted to the
fields the engine reads (`doc.get("filename", ...)`, `doc.get("content", ...)`
in `_execute_llm_engine`). -/
structure SearchDoc where
  filename : String
  content : String
  deriving Repr, DecidableEq

/-- Result metadata attached by the `output` handler in `"json"` format. -/
structure OutputMetadata where
  query : String
  context_used : Bool
  format : String
  deriving Repr, DecidableEq

/-- A node's result value: the four tagged dict shapes produced by the four
handlers.  The constructor is the value of the `"type"` discriminant field. -/
inductive NodeResult where
  | userQuery (query : String)
  | knowledgeBase (query : Option String) (results : List SearchDoc)
      (status : Option String)
  | llmResponse (query response : String) (context_used : Bool)
      (web_search_used : Option Bool)
  | output (response : String) (metadata : Option OutputMetadata)
  deriving Repr, DecidableEq

/-- Is the result tagged `"llm_response"`? -/
def NodeResult.isLLMResponse : NodeResult → Bool
  | NodeResult.llmResponse _ _ _ _ => true
  | _ => false

/-- Is the result tagged `"user_query"`? -/
def NodeResult.isUserQuery : NodeResult → Bool
  | NodeResult.userQuery _ => true
  | _ => false

/-- The workflow input payload; the engine reads only its `"query"` key. -/
structure InputData where
  query : Option String
  deriving Repr, DecidableEq

/-- One entry of `context.execution_log`; the wall-clock `timestamp` is not
modelled. -/
structure LogStep where
  node_id : String
  node_type : String
  result : NodeResult
  deriving Repr, DecidableEq

/-- Model of `ExecutionContext`: `intermediate_results` is Python's insertion-ordered
dict, modelled as an association list; `start_time` is wall clock and not
modelled. -/
structure ExecutionContext where
  input_data : InputData
  intermediate_results : List (String × NodeResult)
  execution_log : List LogStep
  deriving Repr, DecidableEq

/-- The external capabilities (`LLMService.generate_response` and
`VectorService.search`); both may fail with a message. -/
structure Capabilities where
  search : String → String → Int → ℚ → Except String (List SearchDoc)
  generate : String → String → String → Nat → Option Bool →
    Except String String

/-- Python dict insert/update on the insertion-ordered results mapping:
an existing key keeps its position, a new key is appended. -/
def insertResult (results : List (String × NodeResult)) (nid : String)
    (r : NodeResult) : List (String × NodeResult) :=
  if results.any (fun p => p.1 == nid) then
    results.map (fun p => if p.1 == nid then (nid, r) else p)
  else results ++ [(nid, r)]

/-- The first (`break` on first hit) `"user_query"`-tagged value in the
results mapping, as scanned by `_execute_knowledge_base` and
`_execute_output`-style loops. -/
def firstUserQuery : List (String × NodeResult) → Option String
  | [] => none
  | (_, NodeResult.userQuery q) :: _ => some q
  | _ :: rest => firstUserQuery rest

/-- The first `"llm_response"`-tagged value in the results mapping (the
`break`-on-first-hit scan of `_execute_output`). -/
def firstLLMResponse : List (String × NodeResult) →
    Option (String × String × Bool)
  | [] => none
  | (_, NodeResult.llmResponse q r c _) :: _ => some (q, r, c)
  | _ :: rest => firstLLMResponse rest

/-- The last `"user_query"`-tagged value in the results mapping (the
no-`break` scan of `_execute_llm_engine` keeps overwriting, so the final
value is the last match). -/
def lastUserQuery (results : List (String × NodeResult)) : Option String :=
  results.foldl
    (fun acc p =>
      match p.2 with
      | NodeResult.userQuery q => some q
      | _ => acc) none

/-- The last `"knowledge_base"`-tagged value in the results mapping (same
no-`break` scan of `_execute_llm_engine`). -/
def lastKnowledge (results : List (String × NodeResult)) :
    Option (Option String × List SearchDoc × Option String) :=
  results.foldl
    (fun acc p =>
      match p.2 with
      | NodeResult.knowledgeBase q rs st => some (q, rs, st)
      | _ => acc) none

/-- The last `"llm_response"`-tagged value: what a latest-first lookup (the
spec's wording for the `output` node) would select. -/
def lastLLMResponse (results : List (String × NodeResult)) :
    Option (String × String × Bool) :=
  results.foldl
    (fun acc p =>
      match p.2 with
      | NodeResult.llmResponse q r c _ => some (q, r, c)
      | _ => acc) none

/-- Query resolution of `_execute_knowledge_base`: the first `"user_query"`
result, else the input payload's `query` when truthy. -/
def resolveQueryKB (ctx : ExecutionContext) : Option String :=
  match firstUserQuery ctx.intermediate_results with
  | some q => some q
  | none =>
    match ctx.input_data.query with
    | some s => if s.isEmpty then none else some s
    | none => none

/-- Query resolution of `_execute_llm_engine`: the last `"user_query"`
result, else the input payload's `query` when truthy. -/
def resolveQueryLLM (ctx : ExecutionContext) : Option String :=
  match lastUserQuery ctx.intermediate_results with
  | some q => some q
  | none =>
    match ctx.input_data.query with
    | some s => if s.isEmpty then none else some s
    | none => none

/-- Model of `_execute_user_query`. -/
def executeUserQuery (ctx : ExecutionContext) : Except String NodeResult :=
  let q := ctx.input_data.query.getD ""
  if q.isEmpty then Except.error "No query provided"
  else Except.ok (NodeResult.userQuery q)

/-- The engine's fixed similarity threshold for vector search (the node's own
`threshold` config field is never passed). -/
def fixedThreshold : ℚ := 3/10

/-- Model of `_execute_knowledge_base`: resolve a query (skipping the search when there
is none), then search with the configured collection (default `"default"`),
configured topK (default 5) and the fixed threshold. -/
def executeKnowledgeBase (caps : Capabilities) (node : WorkflowNode)
    (ctx : ExecutionContext) : Except String NodeResult :=
  match resolveQueryKB ctx with
  | none =>
    Except.ok (NodeResult.knowledgeBase none [] (some "skipped"))
  | some q =>
    match caps.search q (orString node.data.collection "default")
        (orInt node.data.topK 5) fixedThreshold with
    | Except.error e => Except.error e
    | Except.ok rs => Except.ok (NodeResult.knowledgeBase (some q) rs none)

/-- The context string built by `_execute_llm_engine` from the last
`"knowledge_base"` result, empty when there is none or its `results` list is
empty. -/
def contextTextOf
    (kd : Option (Option String × List SearchDoc × Option String)) : String :=
  match kd with
  | none => ""
  | some (_, docs, _) =>
    if docs.isEmpty then ""
    else
      String.intercalate "\n"
        (docs.map (fun d =>
          "Document: " ++ (d.filename ++ ("\nContent: " ++ d.content))))

/-- The model identifier hard-coded by `_execute_llm_engine` (the node's own
`model` config field is never passed to a generation call). -/
def fixedModel : String := "gpt-5-nano-2025-08-07"

/-- The message of the `AttributeError` raised when `_execute_llm_engine`
evaluates `node.data.maxTokens` (workflow_executor.py:379): the Pydantic
`NodeData` schema declares no `maxTokens` field, so the attribute access
faults while the arguments of the `generate_response` call are being built,
before the call is made. -/
def attributeErrorMaxTokens : String :=
  "'NodeData' object has no attribute 'maxTokens'"

/-- Model of `_execute_llm_engine`: resolve a query (error when none); the
context text, web-search flag and fixed model are then assembled without
fault, but evaluating `node.data.maxTokens` for the generation call's
`max_tokens` argument raises `AttributeError` (see
`attributeErrorMaxTokens`), so the handler always fails there and the
generation capability is never invoked. -/
def executeLLMEngine (caps : Capabilities) (node : WorkflowNode)
    (ctx : ExecutionContext) : Except String NodeResult :=
  match resolveQueryLLM ctx with
  | none => Except.error "No query found for LLM processing"
  | some _ => Except.error attributeErrorMaxTokens

/-- Model of `_execute_output`: take the first `"llm_response"` result (error when
none) and format it according to the node's `format` config (default
`"text"`). -/
def executeOutput (node : WorkflowNode) (ctx : ExecutionContext) :
    Except String NodeResult :=
  match firstLLMResponse ctx.intermediate_results with
  | none => Except.error "No LLM response found for output"
  | some (q, resp, ctxUsed) =>
    if orString node.data.format "text" == "json" then
      Except.ok (NodeResult.output resp
        (some { query := q, context_used := ctxUsed, format := "json" }))
    else
      Except.ok (NodeResult.output resp none)

/-- Model of `_execute_component`: dispatch on the node's type string. -/
def executeComponent (caps : Capabilities) (node : WorkflowNode)
    (ctx : ExecutionContext) : Except String NodeResult :=
  if node.type == inputType then executeUserQuery ctx
  else if node.type == knowledgeType then executeKnowledgeBase caps node ctx
  else if node.type == llmType then executeLLMEngine caps node ctx
  else if node.type == outputType then executeOutput node ctx
  else Except.error ("Unknown component type: " ++ node.type)

/-- The `node_map` lookup of `execute_workflow`: a Python dict comprehension
keeps the last node for a duplicated id. -/
def lookupNode (nodes : List WorkflowNode) (nid : String) :
    Option WorkflowNode :=
  nodes.reverse.find? (fun n => n.id == nid)

/-- The driver loop of `execute_workflow` over the execution order: look the
node up (a missing id is Python's `KeyError`, whose `str` is the quoted key),
execute it, record its result and log step; stop at the first failure,
returning the context reached so far and the error message. -/
def runLoop (caps : Capabilities) (nodes : List WorkflowNode) :
    List String → ExecutionContext → ExecutionContext × Option String
  | [], ctx => (ctx, none)
  | nid :: rest, ctx =>
    match lookupNode nodes nid with
    | none => (ctx, some ("'" ++ nid ++ "'"))
    | some node =>
      match executeComponent caps node ctx with
      | Except.error e => (ctx, some e)
      | Except.ok r =>
        runLoop caps nodes rest
          { ctx with
            intermediate_results := insertResult ctx.intermediate_results nid r
            execution_log :=
              ctx.execution_log ++ [{ node_id := nid, node_type := node.type, result := r }] }

/-- The dict returned by `execute_workflow`: `output` is present only on the
completed path, `error` only on the failed path; `total_steps` is the length
of `steps`; `execution_time` is wall clock and carried as 0 (see header). -/
structure ExecutionResult where
  status : String
  error : Option String
  output : Option (List (String × NodeResult))
  steps : List LogStep
  total_steps : Nat
  execution_time : Nat
  deriving Repr, DecidableEq

/-- The fresh per-run context of `execute_workflow`. -/
def initialContext (input : InputData) : ExecutionContext :=
  { input_data := input, intermediate_results := [], execution_log := [] }

/-- Model of `execute_workflow`: validate (an invalid workflow raises
`ValueError("Invalid workflow: ...")`, caught by the driver's own handler with
an empty log), then run the loop over the validator's order; any failure is
converted into a `"failed"` result carrying the partial log, success into a
`"completed"` result carrying the results mapping. -/
def executeWorkflow (caps : Capabilities) (nodes : List WorkflowNode)
    (edges : List WorkflowEdge) (input : InputData) : ExecutionResult :=
  if !(validateWorkflow nodes edges).is_valid then
    { status := "failed"
      error := some ("Invalid workflow: " ++
        String.intercalate ", " (validateWorkflow nodes edges).errors)
      output := none
      steps := []
      total_steps := 0
      execution_time := 0 }
  else
    match runLoop caps nodes (validateWorkflow nodes edges).execution_order
        (initialContext input) with
    | (ctx, some e) =>
      { status := "failed"
        error := some e
        output := none
        steps := ctx.execution_log
        total_steps := ctx.execution_log.length
        execution_time := 0 }
    | (ctx, none) =>
      { status := "completed"
        error := none
        output := some ctx.intermediate_results
        steps := ctx.execution_log
        total_steps := ctx.execution_log.length
        execution_time := 0 }

/-! Concrete fixtures used by witnesses and counterexamples. -/

/-- A linear chain `input -> knowledge -> llm -> output` with well-formed
config. -/
def chainNodes : List WorkflowNode :=
  [ { id := "input-id", type := inputType, data := { label := "q" } },
    { id := "knowledge-id", type := knowledgeType,
      data := { label := "kb", collection := some "docs" } },
    { id := "llm-id", type := llmType,
      data := { label := "gen", model := some "gpt-4" } },
    { id := "output-id", type := outputType, data := { label := "out" } } ]

/-- The edges of the linear chain. -/
def chainEdges : List WorkflowEdge :=
  [ { id := "e1", source := "input-id", target := "knowledge-id" },
    { id := "e2", source := "knowledge-id", target := "llm-id" },
    { id := "e3", source := "llm-id", target := "output-id" } ]

/-- Capabilities that always succeed with fixed values. -/
def okCaps : Capabilities :=
  { search := fun _ _ _ _ => Except.ok [{ filename := "f.txt", content := "c" }]
    generate := fun _ _ _ _ _ => Except.ok "generated" }

/-- Capabilities whose generation call fails. -/
def genFailCaps : Capabilities :=
  { search := fun _ _ _ _ => Except.ok []
    generate := fun _ _ _ _ _ => Except.error "boom" }

/-- The code's BFS loop and the spec's BFS wording compute the same visit
order (the code's loop additionally returns its visited set). -/
lemma bfsLoop_fst (adj : String → List String) :
    ∀ (fuel : Nat) (queue visited order : List String),
      (bfsLoop adj fuel queue visited order).1 =
        bfsSpecLoop adj fuel queue visited order
  | 0, _, _, _ => rfl
  | _ + 1, [], _, _ => rfl
  | fuel + 1, q :: rest, visited, order => by
    simp only [bfsLoop, bfsSpecLoop]
    split
    · exact bfsLoop_fst adj fuel rest visited order
    · exact bfsLoop_fst adj fuel _ _ _

/-- The BFS loop only ever appends to the order and pushes the same elements
onto the visited list: its result extends `(order, visited)` by one list `L`
on both sides. -/
lemma bfsLoop_shape (adj : String → List String) :
    ∀ (fuel : Nat) (queue visited order : List String),
      ∃ L, bfsLoop adj fuel queue visited order =
        (order ++ L, L.reverse ++ visited)
  | 0, _, visited, order => ⟨[], by simp [bfsLoop]⟩
  | _ + 1, [], visited, order => ⟨[], by simp [bfsLoop]⟩
  | fuel + 1, q :: rest, visited, order => by
    simp only [bfsLoop]
    split
    · exact bfsLoop_shape adj fuel rest visited order
    · obtain ⟨L, hL⟩ := bfsLoop_shape adj fuel
        (rest ++ (adj q).filter (fun t => !(q :: visited).contains t))
        (q :: visited) (order ++ [q])
      exact ⟨q :: L, by rw [hL]; simp⟩

/-- Reversal does not change list membership, stated for `contains`. -/
lemma contains_reverse (l : List String) (x : String) :
    l.reverse.contains x = l.contains x := by
  simp [List.contains, List.elem_eq_mem]

/-- The code's order resolver computes exactly the order described by the
spec: BFS order, then the nodes the BFS did not visit (equivalently, the
nodes not in the BFS order), in node-listing order. -/
lemma determineExecutionOrder_eq_spec (nodes : List WorkflowNode)
    (edges : List WorkflowEdge) :
    determineExecutionOrder nodes edges = resolveOrderSpec nodes edges := by
  unfold determineExecutionOrder resolveOrderSpec
  cases h : nodes.find? (fun n => n.type == inputType) with
  | none => rfl
  | some inp =>
    obtain ⟨L, hL⟩ :=
      bfsLoop_shape (adjOf nodes edges) (bfsFuel nodes edges) [inp.id] [] []
    have h1 :=
      bfsLoop_fst (adjOf nodes edges) (bfsFuel nodes edges) [inp.id] [] []
    simp only [List.nil_append, List.append_nil] at hL
    rw [hL] at h1
    simp only [hL, ← h1]
    refine congrArg (fun t => L ++ List.map _ t) ?_
    refine List.filter_congr ?_
    intro n _
    rw [contains_reverse]

/-- C1: for every node list and edge list with an input-type node present,
`determineExecutionOrder` returns the order produced by breadth-first
traversal from the first input-type node in node-listing order, followed by
every node the BFS did not visit, in node-listing order (`resolveOrderSpec`,
transcribed from the spec); in particular on the linear chain
`input -> knowledge -> llm -> output` it returns exactly the four node ids in
chain order. -/
theorem resolveOrder_is_bfs_with_leftover_append :
    (∀ (nodes : List WorkflowNode) (edges : List WorkflowEdge)
      (inp : WorkflowNode),
      nodes.find? (fun n => n.type == inputType) = some inp →
      determineExecutionOrder nodes edges = resolveOrderSpec nodes edges) ∧
    determineExecutionOrder chainNodes chainEdges =
      ["input-id", "knowledge-id", "llm-id", "output-id"] :=
  ⟨fun nodes edges _ _ => determineExecutionOrder_eq_spec nodes edges,
   by decide⟩

/-- Witness for C1: the chain graph has an input node, and the resolver
agrees with the spec's order on it. -/
theorem resolveOrder_is_bfs_with_leftover_append_witness :
    determineExecutionOrder chainNodes chainEdges =
      resolveOrderSpec chainNodes chainEdges :=
  resolveOrder_is_bfs_with_leftover_append.1 chainNodes chainEdges
    { id := "input-id", type := inputType, data := { label := "q" } }
    (by rfl)

/-- Splitting the driver loop at a list boundary: the tail runs only when the
prefix ran without failure. -/
lemma runLoop_append (caps : Capabilities) (nodes : List WorkflowNode) :
    ∀ (a b : List String) (ctx : ExecutionContext),
      runLoop caps nodes (a ++ b) ctx =
        match runLoop caps nodes a ctx with
        | (c, none) => runLoop caps nodes b c
        | (c, some e) => (c, some e)
  | [], _, _ => rfl
  | nid :: a, b, ctx => by
    cases hl : lookupNode nodes nid with
    | none => simp only [List.cons_append, runLoop, hl]
    | some node =>
      cases he : executeComponent caps node ctx with
      | error e => simp only [List.cons_append, runLoop, hl, he]
      | ok r =>
        simp only [List.cons_append, runLoop, hl, he]
        exact runLoop_append caps nodes a b _

/-- A successful run of the loop appends exactly one log step per processed
node id, in order, and leaves the input payload untouched. -/
lemma runLoop_ok_log (caps : Capabilities) (nodes : List WorkflowNode) :
    ∀ (a : List String) (ctx c : ExecutionContext),
      runLoop caps nodes a ctx = (c, none) →
      c.execution_log.map (fun s => s.node_id) =
        ctx.execution_log.map (fun s => s.node_id) ++ a
  | [], ctx, c, h => by
    cases h
    simp
  | nid :: a, ctx, c, h => by
    cases hl : lookupNode nodes nid with
    | none => simp only [runLoop, hl, Prod.mk.injEq] at h; cases h.2
    | some node =>
      cases he : executeComponent caps node ctx with
      | error e => simp only [runLoop, hl, he, Prod.mk.injEq] at h; cases h.2
      | ok r =>
        simp only [runLoop, hl, he] at h
        have := runLoop_ok_log caps nodes a _ c h
        simpa using this

/-- Shared failure-containment lemma for the driver: if validation passed,
the order splits as `pre ++ nid :: post`, the prefix ran cleanly to `ctx`,
and processing `nid` in `ctx` fails with message `e`, then `execute_workflow`
returns the `"failed"` result carrying `e` and the partial log, whose steps
are exactly the nodes of `pre` in order. -/
lemma executeWorkflow_fail_at (caps : Capabilities)
    (nodes : List WorkflowNode) (edges : List WorkflowEdge)
    (input : InputData) (pre : List String) (nid : String)
    (post : List String) (ctx : ExecutionContext) (e : String)
    (hvalid : (validateWorkflow nodes edges).is_valid = true)
    (horder : (validateWorkflow nodes edges).execution_order =
      pre ++ nid :: post)
    (hpre : runLoop caps nodes pre (initialContext input) = (ctx, none))
    (hfail : runLoop caps nodes [nid] ctx = (ctx, some e)) :
    executeWorkflow caps nodes edges input =
      { status := "failed"
        error := some e
        output := none
        steps := ctx.execution_log
        total_steps := ctx.execution_log.length
        execution_time := 0 } ∧
    ctx.execution_log.map (fun s => s.node_id) = pre := by
  constructor
  · unfold executeWorkflow
    rw [hvalid, horder]
    have hsplit : pre ++ nid :: post = pre ++ ([nid] ++ post) := by simp
    rw [hsplit, runLoop_append, hpre]
    simp only [runLoop_append, hfail]
    simp
  · have := runLoop_ok_log caps nodes pre (initialContext input) ctx hpre
    simpa [initialContext] using this

/-- C2: the driver never propagates an exception: when validation passed and
some node of the execution order fails after a cleanly executed prefix, no
further node runs and `execute_workflow` returns a `"failed"` result whose
error is the exception's message, whose log holds exactly the steps of the
nodes completed before the failure, and whose execution-time field is
present. -/
theorem execute_converts_node_failure (caps : Capabilities)
    (nodes : List WorkflowNode) (edges : List WorkflowEdge)
    (input : InputData) (pre : List String) (nid : String)
    (post : List String) (ctx : ExecutionContext) (e : String)
    (hvalid : (validateWorkflow nodes edges).is_valid = true)
    (horder : (validateWorkflow nodes edges).execution_order =
      pre ++ nid :: post)
    (hpre : runLoop caps nodes pre (initialContext input) = (ctx, none))
    (hfail : runLoop caps nodes [nid] ctx = (ctx, some e)) :
    executeWorkflow caps nodes edges input =
      { status := "failed"
        error := some e
        output := none
        steps := ctx.execution_log
        total_steps := ctx.execution_log.length
        execution_time := 0 } ∧
    ctx.execution_log.map (fun s => s.node_id) = pre :=
  executeWorkflow_fail_at caps nodes edges input pre nid post ctx e
    hvalid horder hpre hfail

/-- The context reached after the chain's input and knowledge nodes ran with
`genFailCaps` on input query `"hi"`. -/
def c2Ctx : ExecutionContext :=
  { input_data := { query := some "hi" }
    intermediate_results :=
      [("input-id", NodeResult.userQuery "hi"),
       ("knowledge-id", NodeResult.knowledgeBase (some "hi") [] none)]
    execution_log :=
      [{ node_id := "input-id", node_type := "input",
         result := NodeResult.userQuery "hi" },
       { node_id := "knowledge-id", node_type := "knowledge",
         result := NodeResult.knowledgeBase (some "hi") [] none }] }

/-- Witness for C2: on the chain, the llm node's execution raises (its
`maxTokens` attribute read faults), and the run fails with that exception's
message after exactly the input and knowledge steps. -/
theorem execute_converts_node_failure_witness :
    executeWorkflow genFailCaps chainNodes chainEdges { query := some "hi" } =
      { status := "failed"
        error := some attributeErrorMaxTokens
        output := none
        steps := c2Ctx.execution_log
        total_steps := c2Ctx.execution_log.length
        execution_time := 0 } ∧
    c2Ctx.execution_log.map (fun s => s.node_id) =
      ["input-id", "knowledge-id"] :=
  execute_converts_node_failure genFailCaps chainNodes chainEdges
    { query := some "hi" } ["input-id", "knowledge-id"] "llm-id"
    ["output-id"] c2Ctx attributeErrorMaxTokens
    (by decide) (by decide) (by decide) (by decide)

/-- C4: when validation fails, `execute_workflow` performs no node execution:
it returns a `"failed"` result whose error message carries the validator's
error list, with an empty log, and no exception reaches the caller (the
function is total and returns this value). -/
theorem execute_invalid_runs_nothing (caps : Capabilities)
    (nodes : List WorkflowNode) (edges : List WorkflowEdge)
    (input : InputData)
    (h : (validateWorkflow nodes edges).is_valid = false) :
    executeWorkflow caps nodes edges input =
      { status := "failed"
        error := some ("Invalid workflow: " ++
          String.intercalate ", " (validateWorkflow nodes edges).errors)
        output := none
        steps := []
        total_steps := 0
        execution_time := 0 } := by
  unfold executeWorkflow
  rw [h]
  rfl

/-- Witness for C4: the empty graph is invalid and executing it runs no
node. -/
theorem execute_invalid_runs_nothing_witness :
    executeWorkflow okCaps [] [] { query := some "hi" } =
      { status := "failed"
        error := some ("Invalid workflow: " ++
          String.intercalate ", " (validateWorkflow [] []).errors)
        output := none
        steps := []
        total_steps := 0
        execution_time := 0 } :=
  execute_invalid_runs_nothing okCaps [] [] { query := some "hi" } (by decide)

/-- A result list with no `"llm_response"` entry yields no first match. -/
lemma firstLLMResponse_eq_none :
    ∀ (l : List (String × NodeResult)),
      (∀ p ∈ l, (p : String × NodeResult).2.isLLMResponse = false) →
      firstLLMResponse l = none
  | [], _ => rfl
  | (k, res) :: rest, h => by
    have h1 : res.isLLMResponse = false := h (k, res) (by simp)
    have h2 := firstLLMResponse_eq_none rest (fun p hp => h p (by simp [hp]))
    cases res with
    | llmResponse q r c w => simp [NodeResult.isLLMResponse] at h1
    | userQuery q => simpa [firstLLMResponse] using h2
    | knowledgeBase q rs st => simpa [firstLLMResponse] using h2
    | output r m => simpa [firstLLMResponse] using h2

/-- The first-match scan at a boundary: entries without the `"llm_response"`
tag are skipped, the first tagged entry is returned. -/
lemma firstLLMResponse_append
    (a : List (String × NodeResult)) (k q r : String) (c : Bool)
    (w : Option Bool) (b : List (String × NodeResult))
    (ha : ∀ p ∈ a, (p : String × NodeResult).2.isLLMResponse = false) :
    firstLLMResponse (a ++ (k, NodeResult.llmResponse q r c w) :: b) =
      some (q, r, c) := by
  induction a with
  | nil => rfl
  | cons hd tl ih =>
    obtain ⟨kh, res⟩ := hd
    have h1 : res.isLLMResponse = false := ha (kh, res) (by simp)
    have h2 := ih (fun p hp => ha p (by simp [hp]))
    cases res with
    | llmResponse q' r' c' w' => simp [NodeResult.isLLMResponse] at h1
    | userQuery q' => simpa [firstLLMResponse] using h2
    | knowledgeBase q' rs st => simpa [firstLLMResponse] using h2
    | output r' m => simpa [firstLLMResponse] using h2

/-- An output node used by the C3 counterexample (default `"text"` format). -/
def plainOutputNode : WorkflowNode :=
  { id := "out", type := outputType, data := { label := "o" } }

/-- A context holding two differently-valued `"llm_response"` entries. -/
def twoLLMCtx : ExecutionContext :=
  { input_data := { query := some "hi" }
    intermediate_results :=
      [("a", NodeResult.llmResponse "q1" "r1" false (some false)),
       ("b", NodeResult.llmResponse "q2" "r2" false (some false))]
    execution_log := [] }

/-- Counterexample to C3 as stated: with two `"llm_response"` entries in the
results mapping, the output node is built from the FIRST (earliest) one —
response `"r1"` — not from the most recently added one, whose response is
`"r2"`. -/
theorem output_uses_first_llm_counterexample :
    lastLLMResponse twoLLMCtx.intermediate_results = some ("q2", "r2", false) ∧
    executeOutput plainOutputNode twoLLMCtx =
      Except.ok (NodeResult.output "r1" none) ∧
    NodeResult.output "r1" none ≠ NodeResult.output "r2" none := by
  refine ⟨by decide, by decide, by decide⟩

/-- C3 (amended): the output node's result is built from the EARLIEST (first
in insertion order) `"llm_response"` entry of the results mapping, selected
by scanning tags (edges play no part: `executeOutput` takes no edges); with
no such entry it fails with the no-response error. -/
theorem output_scans_for_earliest_llm :
    (∀ (node : WorkflowNode) (ctx : ExecutionContext)
      (a : List (String × NodeResult)) (k q r : String) (c : Bool)
      (w : Option Bool) (b : List (String × NodeResult)),
      ctx.intermediate_results = a ++ (k, NodeResult.llmResponse q r c w) :: b →
      (∀ p ∈ a, (p : String × NodeResult).2.isLLMResponse = false) →
      executeOutput node ctx =
        Except.ok (NodeResult.output r
          (if orString node.data.format "text" == "json" then
            some { query := q, context_used := c, format := "json" }
          else none))) ∧
    (∀ (node : WorkflowNode) (ctx : ExecutionContext),
      (∀ p ∈ ctx.intermediate_results,
        (p : String × NodeResult).2.isLLMResponse = false) →
      executeOutput node ctx = Except.error "No LLM response found for output") := by
  constructor
  · intro node ctx a k q r c w b hsplit ha
    unfold executeOutput
    rw [hsplit, firstLLMResponse_append a k q r c w b ha]
    by_cases hc : (orString node.data.format "text" == "json") = true
    · simp [hc]
    · simp [hc]
  · intro node ctx h
    unfold executeOutput
    rw [firstLLMResponse_eq_none ctx.intermediate_results h]

/-- Witness for C3 (amended): in a context whose first entry is a user query
and whose second is an llm response, a `"json"`-format output node renders
that response with metadata. -/
theorem output_scans_for_earliest_llm_witness :
    executeOutput
      { id := "out2", type := outputType,
        data := { label := "o", format := some "json" } }
      { input_data := { query := some "hi" }
        intermediate_results :=
          [("u", NodeResult.userQuery "hi"),
           ("l", NodeResult.llmResponse "hi" "ans" true (some false))]
        execution_log := [] } =
      Except.ok (NodeResult.output "ans"
        (if orString (some "json") "text" == "json" then
          some { query := "hi", context_used := true, format := "json" }
        else none)) :=
  output_scans_for_earliest_llm.1
    { id := "out2", type := outputType,
      data := { label := "o", format := some "json" } }
    { input_data := { query := some "hi" }
      intermediate_results :=
        [("u", NodeResult.userQuery "hi"),
         ("l", NodeResult.llmResponse "hi" "ans" true (some false))]
      execution_log := [] }
    [("u", NodeResult.userQuery "hi")] "l" "hi" "ans" true (some false) []
    (by rfl) (by decide)

/-- C8: for an output node with an available `"llm_response"`: `"json"`
format yields a result carrying metadata (query, context-used flag, format
`"json"`); any other format yields exactly the bare response with no
metadata. -/
theorem output_format_controls_metadata (node : WorkflowNode)
    (ctx : ExecutionContext) (q r : String) (c : Bool)
    (h : firstLLMResponse ctx.intermediate_results = some (q, r, c)) :
    (orString node.data.format "text" = "json" →
      executeOutput node ctx =
        Except.ok (NodeResult.output r
          (some { query := q, context_used := c, format := "json" }))) ∧
    (orString node.data.format "text" ≠ "json" →
      executeOutput node ctx = Except.ok (NodeResult.output r none)) := by
  constructor
  · intro hj
    unfold executeOutput
    rw [h]
    simp [hj]
  · intro hj
    unfold executeOutput
    rw [h]
    simp only [beq_iff_eq]
    rw [if_neg hj]

/-- Witness for C8: a `"text"`-format output node returns the bare response
of the llm entry in context. -/
theorem output_format_controls_metadata_witness :
    orString plainOutputNode.data.format "text" ≠ "json" ∧
    executeOutput plainOutputNode twoLLMCtx =
      Except.ok (NodeResult.output "r1" none) :=
  ⟨by decide,
   (output_format_controls_metadata plainOutputNode twoLLMCtx "q1" "r1" false
      (by decide)).2 (by decide)⟩

/-- The node with its configured similarity threshold replaced. -/
def withThreshold (node : WorkflowNode) (t : Option ℚ) : WorkflowNode :=
  { node with data := { node.data with threshold := t } }

/-- C5 (code-bug evidence): the knowledge half of the claim is true of the
code — with a resolvable query the vector search is always invoked with the
fixed threshold 0.3, the configured collection defaulting to `"default"`
and the configured top-K defaulting to 5, and changing the node's own
threshold field changes nothing.  The llm half is not: text generation is
NEVER invoked — the llm handler's result does not depend on the capability
record at all, because the read of the undeclared `maxTokens` config field
faults first, so an llm node with a resolvable query always fails with the
`AttributeError` message; on the chain with query `"hi"` the whole run
therefore fails at the llm node with that message after two steps. -/
theorem llm_generation_never_invoked :
    fixedThreshold = 3/10 ∧
    (∀ (caps : Capabilities) (node : WorkflowNode) (ctx : ExecutionContext)
      (q : String),
      resolveQueryKB ctx = some q →
      executeKnowledgeBase caps node ctx =
        (caps.search q (orString node.data.collection "default")
          (orInt node.data.topK 5) fixedThreshold).map
          (fun rs => NodeResult.knowledgeBase (some q) rs none)) ∧
    (∀ (caps : Capabilities) (node : WorkflowNode) (ctx : ExecutionContext)
      (t : Option ℚ),
      executeKnowledgeBase caps (withThreshold node t) ctx =
        executeKnowledgeBase caps node ctx) ∧
    (∀ (caps caps2 : Capabilities) (node : WorkflowNode)
      (ctx : ExecutionContext),
      executeLLMEngine caps node ctx = executeLLMEngine caps2 node ctx) ∧
    (∀ (caps : Capabilities) (node : WorkflowNode) (ctx : ExecutionContext)
      (q : String),
      resolveQueryLLM ctx = some q →
      executeLLMEngine caps node ctx =
        Except.error attributeErrorMaxTokens) ∧
    executeWorkflow okCaps chainNodes chainEdges { query := some "hi" } =
      { status := "failed"
        error := some attributeErrorMaxTokens
        output := none
        steps :=
          [{ node_id := "input-id", node_type := "input",
             result := NodeResult.userQuery "hi" },
           { node_id := "knowledge-id", node_type := "knowledge",
             result := NodeResult.knowledgeBase (some "hi")
               [{ filename := "f.txt", content := "c" }] none }]
        total_steps := 2
        execution_time := 0 } := by
  refine ⟨rfl, ?_, fun _ _ _ _ => rfl, fun _ _ _ _ => rfl, ?_, by decide⟩
  · intro caps node ctx q hq
    cases hs : caps.search q (orString node.data.collection "default")
        (orInt node.data.topK 5) fixedThreshold with
    | error e => simp [executeKnowledgeBase, hq, hs, Except.map]
    | ok rs => simp [executeKnowledgeBase, hq, hs, Except.map]
  · intro caps node ctx q hq
    unfold executeLLMEngine
    rw [hq]

/-- Witness for C5's theorem: a concrete context holding the user query
`"go"` drives both conditional parts — the knowledge node's search result
agrees with the mapped capability call, and the llm node fails with the
`AttributeError` message. -/
theorem llm_generation_never_invoked_witness :
    executeKnowledgeBase okCaps plainOutputNode
      { input_data := { query := some "go" }
        intermediate_results := [("u", NodeResult.userQuery "go")]
        execution_log := [] } =
      (okCaps.search "go" (orString plainOutputNode.data.collection "default")
        (orInt plainOutputNode.data.topK 5) fixedThreshold).map
        (fun rs => NodeResult.knowledgeBase (some "go") rs none) ∧
    executeLLMEngine okCaps plainOutputNode
      { input_data := { query := some "go" }
        intermediate_results := [("u", NodeResult.userQuery "go")]
        execution_log := [] } =
      Except.error attributeErrorMaxTokens :=
  ⟨llm_generation_never_invoked.2.1 okCaps plainOutputNode
    { input_data := { query := some "go" }
      intermediate_results := [("u", NodeResult.userQuery "go")]
      execution_log := [] } "go" (by rfl),
   llm_generation_never_invoked.2.2.2.2.1 okCaps plainOutputNode
    { input_data := { query := some "go" }
      intermediate_results := [("u", NodeResult.userQuery "go")]
      execution_log := [] } "go" (by rfl)⟩

/-- Does the results mapping contain a `"user_query"`-tagged entry? -/
def hasUserQuery (results : List (String × NodeResult)) : Bool :=
  results.any (fun p => p.2.isUserQuery)

/-- A result list with no `"user_query"` entry yields no first match. -/
lemma firstUserQuery_eq_none :
    ∀ (l : List (String × NodeResult)),
      (∀ p ∈ l, (p : String × NodeResult).2.isUserQuery = false) →
      firstUserQuery l = none
  | [], _ => rfl
  | (k, res) :: rest, h => by
    have h1 : res.isUserQuery = false := h (k, res) (by simp)
    have h2 := firstUserQuery_eq_none rest (fun p hp => h p (by simp [hp]))
    cases res with
    | userQuery q => simp [NodeResult.isUserQuery] at h1
    | llmResponse q r c w => simpa [firstUserQuery] using h2
    | knowledgeBase q rs st => simpa [firstUserQuery] using h2
    | output r m => simpa [firstUserQuery] using h2

/-- A result list with no `"user_query"` entry yields no last match
either. -/
lemma lastUserQuery_eq_none
    (l : List (String × NodeResult))
    (h : ∀ p ∈ l, (p : String × NodeResult).2.isUserQuery = false) :
    lastUserQuery l = none := by
  suffices hgen : ∀ acc, l.foldl
      (fun acc p =>
        match (p : String × NodeResult).2 with
        | NodeResult.userQuery q => some q
        | _ => acc) acc = acc from hgen none
  induction l with
  | nil => intro acc; rfl
  | cons hd tl ih =>
    intro acc
    obtain ⟨k, res⟩ := hd
    have h1 : res.isUserQuery = false := h (k, res) (by simp)
    have ih2 := ih (fun p hp => h p (by simp [hp]))
    cases res with
    | userQuery q => simp [NodeResult.isUserQuery] at h1
    | llmResponse q r c w => simpa using ih2 acc
    | knowledgeBase q rs st => simpa using ih2 acc
    | output r m => simpa using ih2 acc

/-- With no `"user_query"` entry and a falsy input query, the knowledge
node's query resolution comes back empty. -/
lemma resolveQueryKB_eq_none (ctx : ExecutionContext)
    (h1 : hasUserQuery ctx.intermediate_results = false)
    (h2 : strTruthy ctx.input_data.query = false) :
    resolveQueryKB ctx = none := by
  have hall : ∀ p ∈ ctx.intermediate_results,
      (p : String × NodeResult).2.isUserQuery = false := by
    intro p hp
    have := List.any_eq_false.mp h1 p hp
    simpa using this
  unfold resolveQueryKB
  rw [firstUserQuery_eq_none ctx.intermediate_results hall]
  cases hq : ctx.input_data.query with
  | none => rfl
  | some s =>
    rw [hq] at h2
    simp only [strTruthy, Bool.not_eq_false'] at h2
    simp [h2]

/-- Same, for the llm node's query resolution. -/
lemma resolveQueryLLM_eq_none (ctx : ExecutionContext)
    (h1 : hasUserQuery ctx.intermediate_results = false)
    (h2 : strTruthy ctx.input_data.query = false) :
    resolveQueryLLM ctx = none := by
  have hall : ∀ p ∈ ctx.intermediate_results,
      (p : String × NodeResult).2.isUserQuery = false := by
    intro p hp
    have := List.any_eq_false.mp h1 p hp
    simpa using this
  unfold resolveQueryLLM
  rw [lastUserQuery_eq_none ctx.intermediate_results hall]
  cases hq : ctx.input_data.query with
  | none => rfl
  | some s =>
    rw [hq] at h2
    simp only [strTruthy, Bool.not_eq_false'] at h2
    simp [h2]

/-- The component types are pairwise distinct strings, stated as the `==`
results `_execute_component`'s dispatch chain sees for an llm node. -/
lemma llm_beq_input : (llmType == inputType) = false := by decide

/-- The dispatch chain's knowledge test for an llm node. -/
lemma llm_beq_knowledge : (llmType == knowledgeType) = false := by decide

/-- The dispatch chain's llm test for an llm node. -/
lemma llm_beq_llm : (llmType == llmType) = true := by decide

/-- C7: in a context with no `"user_query"` result and no (truthy) query in
the input payload, the knowledge node returns the skipped result — no
exception — while the llm node fails with the missing-query error; and at
driver level such an llm failure turns the whole run into a `"failed"`
result with that message and only the previously completed steps logged. -/
theorem missing_query_skips_kb_fails_llm :
    (∀ (caps : Capabilities) (node : WorkflowNode) (ctx : ExecutionContext),
      hasUserQuery ctx.intermediate_results = false →
      strTruthy ctx.input_data.query = false →
      executeKnowledgeBase caps node ctx =
        Except.ok (NodeResult.knowledgeBase none [] (some "skipped"))) ∧
    (∀ (caps : Capabilities) (node : WorkflowNode) (ctx : ExecutionContext),
      hasUserQuery ctx.intermediate_results = false →
      strTruthy ctx.input_data.query = false →
      executeLLMEngine caps node ctx =
        Except.error "No query found for LLM processing") ∧
    (∀ (caps : Capabilities) (nodes : List WorkflowNode)
      (edges : List WorkflowEdge) (input : InputData) (pre : List String)
      (nid : String) (post : List String) (node : WorkflowNode)
      (ctx : ExecutionContext),
      (validateWorkflow nodes edges).is_valid = true →
      (validateWorkflow nodes edges).execution_order = pre ++ nid :: post →
      runLoop caps nodes pre (initialContext input) = (ctx, none) →
      lookupNode nodes nid = some node →
      node.type = llmType →
      hasUserQuery ctx.intermediate_results = false →
      strTruthy ctx.input_data.query = false →
      executeWorkflow caps nodes edges input =
        { status := "failed"
          error := some "No query found for LLM processing"
          output := none
          steps := ctx.execution_log
          total_steps := ctx.execution_log.length
          execution_time := 0 } ∧
      ctx.execution_log.map (fun s => s.node_id) = pre) := by
  refine ⟨?_, ?_, ?_⟩
  · intro caps node ctx h1 h2
    unfold executeKnowledgeBase
    rw [resolveQueryKB_eq_none ctx h1 h2]
  · intro caps node ctx h1 h2
    unfold executeLLMEngine
    rw [resolveQueryLLM_eq_none ctx h1 h2]
  · intro caps nodes edges input pre nid post node ctx hvalid horder hpre
      hlook htype h1 h2
    have hcomp : executeComponent caps node ctx =
        Except.error "No query found for LLM processing" := by
      unfold executeComponent
      rw [htype, llm_beq_input, llm_beq_knowledge, llm_beq_llm]
      simp only [Bool.false_eq_true, if_false, if_true]
      unfold executeLLMEngine
      rw [resolveQueryLLM_eq_none ctx h1 h2]
    have hfail : runLoop caps nodes [nid] ctx =
        (ctx, some "No query found for LLM processing") := by
      simp only [runLoop, hlook, hcomp]
    exact executeWorkflow_fail_at caps nodes edges input pre nid post ctx
      "No query found for LLM processing" hvalid horder hpre hfail

/-- A graph abusing duplicate node ids: the id `"1"` names both the input
node and (last wins in the driver's node map) an llm node, so the llm node
is the first to run. -/
def dupNodes : List WorkflowNode :=
  [ { id := "1", type := inputType, data := { label := "i" } },
    { id := "1", type := llmType, data := { label := "g", model := some "m" } },
    { id := "out", type := outputType, data := { label := "o" } } ]

/-- Edges of the duplicate-id graph. -/
def dupEdges : List WorkflowEdge :=
  [ { id := "e1", source := "1", target := "out" } ]

/-- Witness for C7: on the duplicate-id graph with no input query, the first
dispatched node is the llm node, no user query is resolvable, and the run
fails with the missing-query message and an empty log. -/
theorem missing_query_skips_kb_fails_llm_witness :
    executeWorkflow okCaps dupNodes dupEdges { query := none } =
      { status := "failed"
        error := some "No query found for LLM processing"
        output := none
        steps := []
        total_steps := 0
        execution_time := 0 } ∧
    ([] : List LogStep).map (fun s => s.node_id) = [] :=
  missing_query_skips_kb_fails_llm.2.2 okCaps dupNodes dupEdges
    { query := none } [] "1" ["out"]
    { id := "1", type := llmType, data := { label := "g", model := some "m" } }
    (initialContext { query := none })
    (by decide) (by decide) (by rfl) (by rfl) (by rfl) (by rfl) (by rfl)

/-- Appending cannot change a nonempty string's first character. -/
lemma head_of_append (a x : String) (c : Char)
    (h : a.data.head? = some c) : (a ++ x).data.head? = some c := by
  rw [String.data_append]
  cases hd : a.data with
  | nil => rw [hd] at h; cases h
  | cons y ys =>
    rw [hd] at h
    simp only [List.head?_cons, Option.some.injEq] at h
    simp [h]

/-- Strings starting with different characters are different. -/
lemma ne_of_head (s t : String) (c d : Char)
    (hs : s.data.head? = some c) (ht : t.data.head? = some d)
    (hcd : c ≠ d) : s ≠ t := by
  intro he
  rw [he, ht] at hs
  exact hcd (Option.some.inj hs).symm

/-- The missing-components message begins with `M`. -/
lemma missingMsg_head (nodes : List WorkflowNode) :
    (missingMsg nodes).data.head? = some 'M' :=
  head_of_append "Missing required components: " _ 'M' (by decide)

/-- Every per-node configuration error begins with `L` (llm message) or `K`
(knowledge messages). -/
lemma validateNodeConfig_head (node : WorkflowNode) :
    ∀ e ∈ validateNodeConfig node,
      e.data.head? = some 'L' ∨ e.data.head? = some 'K' := by
  intro e he
  unfold validateNodeConfig at he
  split at he
  · split at he
    · rw [List.mem_singleton] at he
      subst he
      exact Or.inl (head_of_append "LLM Engine node " _ 'L' (by decide))
    · cases he
  · split at he
    · rcases List.mem_append.mp he with h | h
      · split at h
        · rw [List.mem_singleton] at h
          subst h
          exact Or.inr (head_of_append "Knowledge Base node " _ 'K' (by decide))
        · cases h
      · revert h
        cases hk : node.data.topK with
        | none => intro h; simp at h
        | some k =>
          intro h
          by_cases hcond : k < 1 ∨ k > 50
          · simp only [hcond, if_true, List.mem_singleton] at h
            subst h
            exact Or.inr (head_of_append "Knowledge Base node " _ 'K' (by decide))
          · simp [hcond] at h
    · cases he

/-- The missing-components message never coincides with a per-node
configuration error. -/
lemma missingMsg_not_config (nodes : List WorkflowNode)
    (node : WorkflowNode) :
    ∀ e ∈ validateNodeConfig node, missingMsg nodes ≠ e := by
  intro e he
  rcases validateNodeConfig_head node e he with h | h
  · exact ne_of_head _ _ 'M' 'L' (missingMsg_head nodes) h (by decide)
  · exact ne_of_head _ _ 'M' 'K' (missingMsg_head nodes) h (by decide)

/-- The missing-components message is not one of the two cardinality
messages (both begin with `O`) nor the connection message (begins with
`I`). -/
lemma missingMsg_not_structural_rest (nodes : List WorkflowNode) :
    missingMsg nodes ≠ "Only one User Query component is allowed" ∧
    missingMsg nodes ≠ "Only one Output component is allowed" ∧
    missingMsg nodes ≠
      "Invalid workflow connections - cannot determine execution order" :=
  ⟨ne_of_head _ _ 'M' 'O' (missingMsg_head nodes) (by decide) (by decide),
   ne_of_head _ _ 'M' 'O' (missingMsg_head nodes) (by decide) (by decide),
   ne_of_head _ _ 'M' 'I' (missingMsg_head nodes) (by decide) (by decide)⟩

/-- C6: a graph with no input-type node validates invalid, with the
missing-components message (which names `input`) among the errors and an
empty execution order; whenever some required type is missing, the
missing-components message occurs exactly once in the error list; and the
execution order is computed exactly when no structural error was emitted,
otherwise left empty. -/
theorem missing_required_components_validation :
    (∀ (nodes : List WorkflowNode) (edges : List WorkflowEdge),
      (∀ n ∈ nodes, n.type ≠ inputType) →
      (validateWorkflow nodes edges).is_valid = false ∧
      "input" ∈ missingRequired nodes ∧
      missingMsg nodes ∈ (validateWorkflow nodes edges).errors ∧
      (validateWorkflow nodes edges).execution_order = []) ∧
    (∀ (nodes : List WorkflowNode) (edges : List WorkflowEdge),
      missingRequired nodes ≠ [] →
      (validateWorkflow nodes edges).errors.count (missingMsg nodes) = 1) ∧
    (∀ (nodes : List WorkflowNode) (edges : List WorkflowEdge),
      structuralErrors nodes = [] →
      (validateWorkflow nodes edges).execution_order =
        determineExecutionOrder nodes edges) ∧
    (∀ (nodes : List WorkflowNode) (edges : List WorkflowEdge),
      structuralErrors nodes ≠ [] →
      (validateWorkflow nodes edges).execution_order = []) := by
  have hmem_message : ∀ (nodes : List WorkflowNode),
      missingRequired nodes ≠ [] →
      ∃ rest, structuralErrors nodes = missingMsg nodes :: rest ∧
        rest.count (missingMsg nodes) = 0 := by
    intro nodes hne
    have hm : (missingRequired nodes).isEmpty = false := by
      simpa [List.isEmpty_eq_false] using hne
    refine ⟨(if (nodes.filter (fun n => n.type == inputType)).length > 1 then
        ["Only one User Query component is allowed"] else []) ++
      (if (nodes.filter (fun n => n.type == outputType)).length > 1 then
        ["Only one Output component is allowed"] else []), ?_, ?_⟩
    · unfold structuralErrors
      rw [hm]
      simp
    · obtain ⟨h1, h2, _⟩ := missingMsg_not_structural_rest nodes
      rw [List.count_append]
      have z1 : (if (nodes.filter (fun n => n.type == inputType)).length > 1
          then ["Only one User Query component is allowed"]
          else []).count (missingMsg nodes) = 0 := by
        split
        · exact List.count_eq_zero.mpr (by simpa using h1)
        · rfl
      have z2 : (if (nodes.filter (fun n => n.type == outputType)).length > 1
          then ["Only one Output component is allowed"]
          else []).count (missingMsg nodes) = 0 := by
        split
        · exact List.count_eq_zero.mpr (by simpa using h2)
        · rfl
      rw [z1, z2]
  have hconfig_zero : ∀ (nodes : List WorkflowNode),
      ((nodes.map validateNodeConfig).flatten).count (missingMsg nodes) = 0 := by
    intro nodes
    refine List.count_eq_zero.mpr ?_
    intro hmem
    obtain ⟨l, hl, hel⟩ := List.mem_flatten.mp hmem
    obtain ⟨n, _, rfl⟩ := List.mem_map.mp hl
    exact missingMsg_not_config nodes n _ hel rfl
  refine ⟨?_, ?_, ?_, ?_⟩
  · intro nodes edges hni
    have hin : "input" ∈ missingRequired nodes := by
      have hnm : "input" ∉ nodes.map (fun n => n.type) := by
        intro hmem
        obtain ⟨n, hn, hty⟩ := List.mem_map.mp hmem
        exact hni n hn hty
      refine List.mem_filter.mpr ⟨by decide, ?_⟩
      simp [List.contains, List.elem_eq_mem, hnm]
    have hne : missingRequired nodes ≠ [] := by
      intro h0
      rw [h0] at hin
      cases hin
    obtain ⟨rest, hstruct, _⟩ := hmem_message nodes hne
    have hstructne : structuralErrors nodes ≠ [] := by
      rw [hstruct]
      intro h0
      cases h0
    refine ⟨?_, hin, ?_, ?_⟩
    · unfold validateWorkflow allErrors
      rw [hstruct]
      simp
    · unfold validateWorkflow allErrors
      rw [hstruct]
      simp
    · unfold validateWorkflow
      simp only [List.isEmpty_eq_false.mpr hstructne, Bool.false_eq_true,
        if_false]
  · intro nodes edges hne
    obtain ⟨rest, hstruct, hrest⟩ := hmem_message nodes hne
    have hstructne : structuralErrors nodes ≠ [] := by
      rw [hstruct]
      intro h0
      cases h0
    unfold validateWorkflow allErrors
    rw [hstruct]
    simp [hrest, hconfig_zero nodes]
  · intro nodes edges hstruct
    unfold validateWorkflow
    simp [hstruct]
  · intro nodes edges hstruct
    unfold validateWorkflow
    simp only [List.isEmpty_eq_false.mpr hstruct, Bool.false_eq_true,
      if_false]

/-- Witness for C6: a two-node graph (llm and output only) has no input
node; validation reports it invalid with the missing-components message and
an empty order. -/
theorem missing_required_components_validation_witness :
    (validateWorkflow
      [ { id := "l1", type := llmType, data := { label := "g", model := some "m" } },
        { id := "o1", type := outputType, data := { label := "o" } } ]
      []).is_valid = false ∧
    "input" ∈ missingRequired
      [ { id := "l1", type := llmType, data := { label := "g", model := some "m" } },
        { id := "o1", type := outputType, data := { label := "o" } } ] ∧
    missingMsg
      [ { id := "l1", type := llmType, data := { label := "g", model := some "m" } },
        { id := "o1", type := outputType, data := { label := "o" } } ] ∈
      (validateWorkflow
        [ { id := "l1", type := llmType, data := { label := "g", model := some "m" } },
          { id := "o1", type := outputType, data := { label := "o" } } ]
        []).errors ∧
    (validateWorkflow
      [ { id := "l1", type := llmType, data := { label := "g", model := some "m" } },
        { id := "o1", type := outputType, data := { label := "o" } } ]
      []).execution_order = [] :=
  missing_required_components_validation.1
    [ { id := "l1", type := llmType, data := { label := "g", model := some "m" } },
      { id := "o1", type := outputType, data := { label := "o" } } ]
    [] (by decide)

/-- The dispatch/validation string test for a knowledge node against llm. -/
lemma knowledge_beq_llm : (knowledgeType == llmType) = false := by decide

/-- The validation string test for a knowledge node against knowledge. -/
lemma knowledge_beq_knowledge : (knowledgeType == knowledgeType) = true := by
  decide

/-- C9: the per-node configuration checks always contribute to the error
list (appended after whatever structural/order errors were emitted): an llm
node with a falsy model identifier yields its model error, a knowledge node
with a falsy collection name yields its collection error, and a knowledge
node whose configured top-K lies outside `[1, 50]` yields its top-K error;
`is_valid` is true iff the error list is empty, and the warnings list is
always empty. -/
theorem node_config_checks_always_run :
    (∀ (nodes : List WorkflowNode) (edges : List WorkflowEdge),
      ∃ pre, (validateWorkflow nodes edges).errors =
        pre ++ (nodes.map validateNodeConfig).flatten) ∧
    (∀ (nodes : List WorkflowNode) (edges : List WorkflowEdge),
      (validateWorkflow nodes edges).is_valid = true ↔
        (validateWorkflow nodes edges).errors = []) ∧
    (∀ (nodes : List WorkflowNode) (edges : List WorkflowEdge),
      (validateWorkflow nodes edges).warnings = []) ∧
    (∀ node : WorkflowNode, node.type = llmType →
      strTruthy node.data.model = false →
      ("LLM Engine node " ++ (node.id ++ ": Model is required")) ∈
        validateNodeConfig node) ∧
    (∀ node : WorkflowNode, node.type = knowledgeType →
      strTruthy node.data.collection = false →
      ("Knowledge Base node " ++ (node.id ++ ": Collection name is required"))
        ∈ validateNodeConfig node) ∧
    (∀ (node : WorkflowNode) (k : Int), node.type = knowledgeType →
      node.data.topK = some k → (k < 1 ∨ k > 50) →
      ("Knowledge Base node " ++ (node.id ++ ": TopK must be between 1 and 50"))
        ∈ validateNodeConfig node) := by
  refine ⟨?_, ?_, fun _ _ => rfl, ?_, ?_, ?_⟩
  · intro nodes edges
    refine ⟨structuralErrors nodes ++
      (if (structuralErrors nodes).isEmpty ∧
        (determineExecutionOrder nodes edges).isEmpty then
        ["Invalid workflow connections - cannot determine execution order"]
      else []), ?_⟩
    unfold validateWorkflow allErrors
    simp [List.append_assoc]
  · intro nodes edges
    unfold validateWorkflow
    simp [List.isEmpty_iff]
  · intro node htype hmodel
    unfold validateNodeConfig
    rw [htype, llm_beq_llm, hmodel]
    simp
  · intro node htype hcoll
    unfold validateNodeConfig
    rw [htype, knowledge_beq_llm, knowledge_beq_knowledge, hcoll]
    simp
  · intro node k htype hk hcond
    unfold validateNodeConfig
    rw [htype, knowledge_beq_llm, knowledge_beq_knowledge, hk]
    simp only [Bool.false_eq_true, if_false, if_true, hcond, List.mem_append,
      List.mem_singleton]
    right
    trivial

/-- Witness for C9: a model-less llm node and an out-of-range-top-K
knowledge node each produce their configuration error. -/
theorem node_config_checks_always_run_witness :
    ("LLM Engine node " ++ ("l9" ++ ": Model is required")) ∈
      validateNodeConfig { id := "l9", type := llmType, data := { label := "g" } } ∧
    ("Knowledge Base node " ++ ("k9" ++ ": TopK must be between 1 and 50")) ∈
      validateNodeConfig
        { id := "k9", type := knowledgeType,
          data := { label := "kb", collection := some "c", topK := some 99 } } :=
  ⟨node_config_checks_always_run.2.2.2.1
    { id := "l9", type := llmType, data := { label := "g" } } rfl rfl,
   node_config_checks_always_run.2.2.2.2.2
    { id := "k9", type := knowledgeType,
      data := { label := "kb", collection := some "c", topK := some 99 } }
    99 rfl rfl (by decide)⟩

/-- A graph whose first edge points at `"ghost"`, which is no node's id, and
which also carries an edge whose source `"phantom"` is no node's id. -/
def ghostNodes : List WorkflowNode :=
  [ { id := "i", type := inputType, data := { label := "q" } },
    { id := "l", type := llmType, data := { label := "g", model := some "m" } },
    { id := "o", type := outputType, data := { label := "out" } } ]

/-- Edges of the dangling-target graph: the input node's first outgoing edge
targets `"ghost"`, so the BFS order visits the dangling id right after the
input node, before the llm node. -/
def ghostEdges : List WorkflowEdge :=
  [ { id := "e1", source := "i", target := "ghost" },
    { id := "e2", source := "i", target := "l" },
    { id := "e3", source := "l", target := "o" },
    { id := "e4", source := "phantom", target := "l" } ]

/-- C10: validation does not enforce the edge-endpoint invariant: the ghost
graph validates as valid although edge `e1`'s target `"ghost"` is no node's
id; the dangling id appears in the execution order (while the edge whose
source is not a node is silently dropped: the order is the same with that
edge removed); and execution then fails on the node-map lookup for
`"ghost"` — reached directly after the input node, before the llm node —
returning a `"failed"` result whose error is the `KeyError` message, rather
than raising. -/
theorem validation_misses_dangling_edge_target :
    (validateWorkflow ghostNodes ghostEdges).is_valid = true ∧
    (∀ n ∈ ghostNodes, n.id ≠ "ghost") ∧
    (validateWorkflow ghostNodes ghostEdges).execution_order =
      ["i", "ghost", "l", "o"] ∧
    determineExecutionOrder ghostNodes
      (ghostEdges.filter (fun e => !(e.source == "phantom"))) =
      ["i", "ghost", "l", "o"] ∧
    executeWorkflow okCaps ghostNodes ghostEdges { query := some "hi" } =
      { status := "failed"
        error := some "'ghost'"
        output := none
        steps :=
          [{ node_id := "i", node_type := "input",
             result := NodeResult.userQuery "hi" }]
        total_steps := 1
        execution_time := 0 } := by
  refine ⟨by decide, by decide, by decide, by decide, by decide⟩


end NoCode
